import Mathlib

/-!
Shallow embedding of the ServiceNowScheduler ticket-template component
(src/template.py) together with the parts of the ServiceNow client layer
(src/servicenow.py) that its control flow depends on, and theorems that
check the specification claims against this embedding.

Python runtime values are embedded as `Value`.  The local filesystem and the
two HTTP clients are oracles (`FS`, `Behavior`) passed explicitly; Python
exceptions are modelled with `Except PyErr`.
-/

/-- Embedded Python runtime values: the shapes produced by tomllib / json
(None, bool, int, str, list, dict with string keys). -/
inductive Value where
  | none
  | bool (b : Bool)
  | int (n : Int)
  | str (s : String)
  | list (items : List Value)
  | dict (entries : List (String × Value))

-- Structural equality on embedded values (mutual recursion through the
-- nested lists).
mutual

def beqV : Value → Value → Bool
  | .none, .none => true
  | .bool a, .bool b => a == b
  | .int a, .int b => a == b
  | .str a, .str b => a == b
  | .list a, .list b => beqL a b
  | .dict a, .dict b => beqD a b
  | _, _ => false

def beqL : List Value → List Value → Bool
  | [], [] => true
  | a :: as, b :: bs => beqV a b && beqL as bs
  | _, _ => false

def beqD : List (String × Value) → List (String × Value) → Bool
  | [], [] => true
  | (k, v) :: as, (l, w) :: bs => k == l && beqV v w && beqD as bs
  | _, _ => false

end

/-- Python `==` on embedded values.  Python's `bool` is a subclass of `int`,
so `True == 1` holds; container equality is structural (the template code
never compares two containers with `==`, so the deep bool/int coercion
inside containers is irrelevant here). -/
def pyEq (a b : Value) : Bool :=
  match a, b with
  | .bool x, .int y => (if x then (1 : Int) else 0) == y
  | .int x, .bool y => x == (if y then (1 : Int) else 0)
  | a, b => beqV a b

/-- Python truthiness: `bool(v)`. -/
def Value.truthy : Value → Bool
  | .none => false
  | .bool b => b
  | .int n => n != 0
  | .str s => !(s == "")
  | .list items => !items.isEmpty
  | .dict entries => !entries.isEmpty

/-- Python `isinstance(v, str)`. -/
def Value.isStr : Value → Bool
  | .str _ => true
  | _ => false

/-- Python `isinstance(v, bool)` (true only of actual booleans). -/
def Value.isBool : Value → Bool
  | .bool _ => true
  | _ => false

/-- Python `isinstance(v, int)`: true of ints and of bools, because Python's
`bool` is a subclass of `int`. -/
def Value.isInstInt : Value → Bool
  | .int _ => true
  | .bool _ => true
  | _ => false

/-- Python `isinstance(v, list)`. -/
def Value.isInstList : Value → Bool
  | .list _ => true
  | _ => false

/-- Python `isinstance(v, dict)`. -/
def Value.isInstDict : Value → Bool
  | .dict _ => true
  | _ => false

/-- The text Python's `type(v).__name__` would give, used in error texts. -/
def Value.typeName : Value → String
  | .none => "NoneType"
  | .bool _ => "bool"
  | .int _ => "int"
  | .str _ => "str"
  | .list _ => "list"
  | .dict _ => "dict"

/-- `d.get(k)` on a dict with string keys: the stored value, `None` when the
key is absent (Python's `dict.get` default). -/
def dget (d : List (String × Value)) (k : String) : Value :=
  match d.find? (fun kv => kv.1 == k) with
  | some kv => kv.2
  | Option.none => Value.none

/-- Embedded Python exceptions raised by the code under scrutiny. -/
inductive PyErr where
  | valueError
  | fileNotFoundError
  | keyError (k : String)
  | typeError
  | attributeError
deriving DecidableEq

/-- Whether the character list `n` occurs contiguously inside `h`
(Python `n in h` for strings). -/
def chSub (n : List Char) : List Char → Bool
  | [] => n.isEmpty
  | c :: t => List.isPrefixOf n (c :: t) || chSub n t

/-- Python `needle in container`.  Key test on dicts, `==`-membership on
lists, substring test on strings; `TypeError` otherwise. -/
def pyIn (needle container : Value) : Except PyErr Bool :=
  match container with
  | .dict d =>
    match needle with
    | .str s => .ok (d.any (fun kv => kv.1 == s))
    | _ => .ok false
  | .list xs => .ok (xs.any (fun x => pyEq needle x))
  | .str hay =>
    match needle with
    | .str n => .ok (chSub n.data hay.data)
    | _ => .error .typeError
  | _ => .error .typeError

/-- Python subscript `container[k]` with a string key: dict lookup raising
`KeyError` when absent, `TypeError` on any non-dict. -/
def pySub (container : Value) (k : String) : Except PyErr Value :=
  match container with
  | .dict d =>
    match d.find? (fun kv => kv.1 == k) with
    | some kv => .ok kv.2
    | Option.none => .error (.keyError k)
  | _ => .error .typeError

/-- Python method call `v.get(k)`: dict lookup defaulting to `None`, and an
`AttributeError` when `v` is not a dict. -/
def pyGetM (v : Value) (k : String) : Except PyErr Value :=
  match v with
  | .dict d => .ok (dget d k)
  | _ => .error .attributeError

/-- Membership-on-a-list fragment of Python `in`, used where the code has
already guarded `isinstance(v, list)` (`today.month in months`). -/
def pyInList (needle : Value) : Value → Bool
  | .list xs => xs.any (fun x => pyEq needle x)
  | _ => false

/-- The local filesystem as an oracle: `os.path.isfile` and `os.path.exists`
answers per path. -/
structure FS where
  isfile : String → Bool
  pathExists : String → Bool

/-- State of a `TicketTemplate` object (template.py).  Per the data model the
`schedule` section is a mapping and `attachments` a list; the scalar fields
carry arbitrary runtime values, as the validator inspects their types. -/
structure TicketTemplate where
  assignment_group : Value := Value.none
  short_description : Value := Value.none
  description : Value := Value.none
  integration_helper : Value := Value.none
  schedule : List (String × Value) := []
  attachments : List Value := []
  validation_errors : List String := []

/-- Errors contributed by one entry of the required-fields map in
`validate_structure` (template.py lines 140-151). -/
def requiredFieldError (fname : String) : Value → List String
  | .none => [fname ++ " is missing or null."]
  | .str _ => []
  | v => [fname ++ " must be a string (found: " ++ v.typeName ++ ")."]

/-- Errors contributed by the `integration_helper` check
(template.py lines 153-157). -/
def integrationHelperErrors : Value → List String
  | .none => []
  | .bool _ => []
  | v => ["integration_helper must be a boolean when provided. Found type: "
      ++ v.typeName ++ "."]

/-- Errors contributed by the `schedule` checks
(template.py lines 159-189). -/
def scheduleErrors (sched : List (String × Value)) : List String :=
  if sched.isEmpty then ["schedule dictionary is empty or was missing."]
  else
    match dget sched "frequency" with
    | Value.none => ["frequency is missing in [ticket.schedule]."]
    | freq =>
      let allowedErr :=
        if ["daily", "weekly", "monthly", "quarterly"].any
            (fun s => pyEq freq (Value.str s)) then []
        else ["Invalid frequency value. Allowed: daily, weekly, monthly, quarterly"]
      let fieldErr :=
        if pyEq freq (Value.str "weekly")
            && beqV (dget sched "day_of_week") Value.none then
          ["day_of_week (integer) is missing for weekly frequency."]
        else if pyEq freq (Value.str "monthly")
            && beqV (dget sched "day_of_month") Value.none then
          ["day_of_month (integer) is missing for monthly frequency."]
        else if pyEq freq (Value.str "quarterly")
            && (beqV (dget sched "months") Value.none
              || beqV (dget sched "day_of_month") Value.none) then
          ["months (list of int) or day_of_month (int) is missing for quarterly frequency."]
        else []
      allowedErr ++ fieldErr

/-- Body of one iteration of the attachment loop in `validate_structure`
(template.py lines 198-237) for a dict entry `item`, over the values its two
`.get` calls produced: the errors it appends and the (zero or one) entries
it adds to `processed_attachments`. -/
def attachmentEntryStep (fs : FS) (i : Nat) (item : Value)
    (file_path is_file_required : Value) : List String × List Value :=
  let valid_file_path_str := file_path.isStr && file_path.truthy
  let valid_is_file_required_bool := is_file_required.isBool
  let pathErr :=
    match file_path with
    | .none => ["path is missing or null in attachment item at index "
        ++ toString i ++ "."]
    | _ =>
      if valid_file_path_str then []
      else ["path in attachment item at index " ++ toString i
        ++ " must be a non-empty string."]
  let reqErr :=
    match is_file_required with
    | .none => ["required is missing or null in attachment item at index "
        ++ toString i ++ "."]
    | _ =>
      if valid_is_file_required_bool then []
      else ["required in attachment item at index " ++ toString i
        ++ " must be a boolean (true/false)."]
  if !(valid_file_path_str && valid_is_file_required_bool) then
    (pathErr ++ reqErr, [])
  else
    match file_path, is_file_required with
    | .str p, .bool req =>
      let file_exists := fs.isfile p
      if req then
        if !file_exists then
          (pathErr ++ reqErr ++ ["Required attachment file " ++ p
            ++ " (item at index " ++ toString i ++ ") does not exist."], [])
        else (pathErr ++ reqErr, [item])
      else
        if !file_exists then (pathErr ++ reqErr, [])
        else (pathErr ++ reqErr, [item])
    | _, _ => (pathErr ++ reqErr, [])

/-- One iteration of the attachment loop in `validate_structure`
(template.py lines 193-237): non-dict entries are flagged and skipped,
dict entries go through `attachmentEntryStep` on their `path` and
`required` values. -/
def attachmentStep (fs : FS) (i : Nat) (item : Value) : List String × List Value :=
  match item with
  | .dict entries =>
    attachmentEntryStep fs i item (dget entries "path") (dget entries "required")
  | _ => (["Attachment item at index " ++ toString i ++ " is not a dictionary."], [])

/-- The whole attachment loop of `validate_structure`, threading the
`enumerate` index: accumulated errors and the retained entries, in order. -/
def attachmentScan (fs : FS) (i : Nat) : List Value → List String × List Value
  | [] => ([], [])
  | item :: rest =>
    let step := attachmentStep fs i item
    let tail := attachmentScan fs (i + 1) rest
    (step.1 ++ tail.1, step.2 ++ tail.2)

/-- The `current_errors` list accumulated by one `validate_structure` call,
in source order: required fields, `integration_helper`, `schedule`,
attachments. -/
def validate_structure_errors (t : TicketTemplate) (fs : FS) : List String :=
  requiredFieldError "short_description" t.short_description
    ++ requiredFieldError "description" t.description
    ++ requiredFieldError "assignment_group" t.assignment_group
    ++ integrationHelperErrors t.integration_helper
    ++ scheduleErrors t.schedule
    ++ (attachmentScan fs 0 t.attachments).1

/-- `TicketTemplate.validate_structure` (template.py lines 131-251): replaces
`attachments` with the retained entries, extends `validation_errors` with
the errors found by this call, and returns true exactly when this call found
none (extending by the empty list models the source's guarded `extend`). -/
def validate_structure (t : TicketTemplate) (fs : FS) : TicketTemplate × Bool :=
  let current_errors := validate_structure_errors t fs
  let processed_attachments := (attachmentScan fs 0 t.attachments).2
  ({ t with
      attachments := processed_attachments,
      validation_errors := t.validation_errors ++ current_errors },
    current_errors.isEmpty)

/-- The fields of the `datetime` reference date that `is_due` reads:
`weekday()` (0 = Monday), `day`, `month`. -/
structure PyDate where
  weekday : Nat
  day : Nat
  month : Nat

/-- `TicketTemplate.is_due` (template.py lines 253-274). -/
def is_due (t : TicketTemplate) (today : PyDate) : Bool :=
  let frequency := dget t.schedule "frequency"
  if pyEq frequency (Value.str "daily") then
    decide (today.weekday < 5)
  else if pyEq frequency (Value.str "weekly") then
    let day_of_week := dget t.schedule "day_of_week"
    day_of_week.isInstInt && pyEq (Value.int (today.weekday : Int)) day_of_week
  else if pyEq frequency (Value.str "monthly") then
    let day_of_month := dget t.schedule "day_of_month"
    day_of_month.isInstInt && pyEq (Value.int (today.day : Int)) day_of_month
  else if pyEq frequency (Value.str "quarterly") then
    let months := dget t.schedule "months"
    let day_of_month := dget t.schedule "day_of_month"
    months.isInstList && day_of_month.isInstInt
      && pyInList (Value.int (today.month : Int)) months
      && pyEq (Value.int (today.day : Int)) day_of_month
  else false

/-- One client-method invocation made by the template orchestration code,
with the arguments the template passes. -/
inductive Event where
  | apiCreate (assignment_group : Value)
  | integCreate (assignment_group : Value)
  | update (table : String) (sys_id : Value) (payload : List (String × Value))
  | attach (table : String) (sys_id : Value) (path : Value)

/-- The two HTTP clients as oracles.  `apiCreate` is the value
`ServiceNowClient.create_requested_item` returns (a dict, or `None` on
failure, by servicenow.py lines 598-624 it is never a non-dict truthy
value).  `integCreate` is the outcome of
`ServiceNowIntegrationClient.create_requested_item`, which can also raise
(see `integration_create_requested_item` below).  `updateResponse` and
`attachResponse` are what `_execute_http_request` yields for the PUT and the
upload POST (`Value.none` for a transport failure, and for the upload also
for an IOError caught inside `add_attachment`). -/
structure Behavior where
  apiCreate : Value
  integCreate : Except PyErr Value
  updateResponse : Value
  attachResponse : String → Value

/-- Response handling of `ServiceNowClient.update_ticket`
(servicenow.py lines 893-908), including the `updated_record.get` access in
its success-logging line, which raises on a non-dict `result`. -/
def update_response_result (b : Behavior) : Except PyErr Value :=
  let response := b.updateResponse
  if response.truthy then
    match pyIn (Value.str "result") response with
    | .error e => .error e
    | .ok true =>
      match pySub response "result" with
      | .error e => .error e
      | .ok updated_record =>
        match pyGetM updated_record "sys_id" with
        | .error e => .error e
        | .ok _ => .ok updated_record
    | .ok false => .ok response
  else .ok Value.none

/-- `ServiceNowClient.update_ticket` (servicenow.py lines 858-908): raises
`ValueError` when the table name or the sys_id is falsy, otherwise processes
the HTTP response. -/
def update_ticket (b : Behavior) (table : String) (sys_id : Value)
    (_payload : List (String × Value)) : Except PyErr Value :=
  if table == "" then .error .valueError
  else if !sys_id.truthy then .error .valueError
  else update_response_result b

/-- `ServiceNowClient.add_attachment` (servicenow.py lines 910-1008): raises
`ValueError` on a falsy table or sys_id, raises `FileNotFoundError` when the
file is absent (`os.path.exists`), otherwise uploads and processes the
response (its own try/except turns IOErrors into a null response; Python's
file-descriptor reading of non-string paths is not modelled, a non-string
path is a `TypeError`). -/
def add_attachment (fs : FS) (b : Behavior) (table : String) (sys_id : Value)
    (file_path : Value) : Except PyErr Value :=
  if table == "" || !sys_id.truthy then .error .valueError
  else
    match file_path with
    | .str p =>
      if !fs.pathExists p then .error .fileNotFoundError
      else
        let response := b.attachResponse p
        if response.truthy then
          match response with
          | .dict d =>
            if d.any (fun kv => kv.1 == "result") then .ok (dget d "result")
            else .ok response
          | _ => .ok response
        else .ok Value.none
    | _ => .error .typeError

/-- The attachment loop of `TicketTemplate._finalize_details`
(template.py lines 78-84): per entry it reads `path` via `.get` (an
`AttributeError` on a non-dict entry) and invokes `add_attachment`; an
exception aborts the loop.  Returns the invocations made and the uncaught
exception, if any. -/
def attachmentUploads (fs : FS) (b : Behavior) (sys_id : Value) :
    List Value → List Event × Option PyErr
  | [] => ([], Option.none)
  | item :: rest =>
    match pyGetM item "path" with
    | .error e => ([], some e)
    | .ok file_path =>
      let ev := Event.attach "sc_req_item" sys_id file_path
      match add_attachment fs b "sc_req_item" sys_id file_path with
      | .error e => ([ev], some e)
      | .ok _ =>
        let tail := attachmentUploads fs b sys_id rest
        (ev :: tail.1, tail.2)

/-- `TicketTemplate._finalize_details` (template.py lines 62-84): one
`update_ticket` call with the template's short_description / description,
then the attachment loop; results of both are discarded, exceptions
propagate, and the method body ends without a return statement, so its
normal return value is Python's implicit `None`. -/
def finalize_details (t : TicketTemplate) (fs : FS) (b : Behavior)
    (sys_id : Value) : List Event × Except PyErr Value :=
  let payload := [("short_description", t.short_description),
    ("description", t.description)]
  let ev := Event.update "sc_req_item" sys_id payload
  match update_ticket b "sc_req_item" sys_id payload with
  | .error e => ([ev], .error e)
  | .ok _ =>
    if t.attachments.isEmpty then ([ev], .ok Value.none)
    else
      let uploads := attachmentUploads fs b sys_id t.attachments
      (ev :: uploads.1,
        match uploads.2 with
        | some e => .error e
        | Option.none => .ok Value.none)

/-- `TicketTemplate._create_via_api` (template.py lines 43-60): invokes the
standard client's creation, returns `None` when the result is falsy, and on
a truthy result performs the `.get` accesses of its logging line (an
`AttributeError` on a truthy non-dict) before returning the record. -/
def create_via_api (t : TicketTemplate) (b : Behavior) :
    List Event × Except PyErr Value :=
  let ev := Event.apiCreate t.assignment_group
  let ritm_data := b.apiCreate
  if !ritm_data.truthy then ([ev], .ok Value.none)
  else
    match pyGetM ritm_data "sys_id" with
    | .error e => ([ev], .error e)
    | .ok _ => ([ev], .ok ritm_data)

/-- `TicketTemplate._create_via_integration_helper` (template.py lines
24-41): same shape as `create_via_api`, over the integration client's
outcome (which may itself be an exception). -/
def create_via_integration (t : TicketTemplate) (b : Behavior) :
    List Event × Except PyErr Value :=
  let ev := Event.integCreate t.assignment_group
  match b.integCreate with
  | .error e => ([ev], .error e)
  | .ok ritm_data =>
    if !ritm_data.truthy then ([ev], .ok Value.none)
    else
      match pyGetM ritm_data "sys_id" with
      | .error e => ([ev], .error e)
      | .ok _ => ([ev], .ok ritm_data)

/-- The tail of `TicketTemplate.create_ticket` after phase 1 (template.py
lines 295-299): a falsy base record makes the whole call return `False`;
otherwise `sys_id` is read with `.get` and `_finalize_details` runs. -/
def create_ticket_after_base (t : TicketTemplate) (fs : FS) (b : Behavior)
    (base : List Event × Except PyErr Value) : List Event × Except PyErr Value :=
  match base.2 with
  | .error e => (base.1, .error e)
  | .ok ticket_base =>
    if !ticket_base.truthy then (base.1, .ok (Value.bool false))
    else
      match pyGetM ticket_base "sys_id" with
      | .error e => (base.1, .error e)
      | .ok sys_id =>
        let fin := finalize_details t fs b sys_id
        (base.1 ++ fin.1, fin.2)

/-- `TicketTemplate.create_ticket` (template.py lines 276-299).
`hasIntegrationClient` models whether an integration client was supplied
(the `sn_integration_client` argument being non-None).  The result is the
list of client-method invocations in order, together with the Python return
value or the uncaught exception. -/
def create_ticket (t : TicketTemplate) (fs : FS) (b : Behavior)
    (hasIntegrationClient : Bool) : List Event × Except PyErr Value :=
  if t.integration_helper.truthy then
    if hasIntegrationClient then
      create_ticket_after_base t fs b (create_via_integration t b)
    else ([], .ok (Value.bool false))
  else create_ticket_after_base t fs b (create_via_api t b)

/-- Outcome of the file-and-parse boundary that `TicketTemplate.load`
(template.py lines 87-129) sits on: either the extracted `ticket` section
shaped as the data model prescribes, or one of the failure cases of its
except/if branches.  Ill-shaped sections land in `unexpectedError` via the
method's catch-all `except Exception` branch. -/
inductive LoadOutcome where
  | parsed (assignment_group short_description description integration_helper : Value)
      (schedule : List (String × Value)) (attachments : List Value)
  | noTicketSection
  | fileNotFound (path : String)
  | tomlDecodeError (msg : String)
  | unexpectedError (msg : String)

/-- `TicketTemplate.load`: on success it overwrites the data fields and
leaves `validation_errors` alone; every failure branch appends one message
and returns false. -/
def load (t : TicketTemplate) (o : LoadOutcome) : TicketTemplate × Bool :=
  match o with
  | .parsed ag sd d ih sched atts =>
    ({ t with
        assignment_group := ag, short_description := sd, description := d,
        integration_helper := ih, schedule := sched, attachments := atts },
      true)
  | .noTicketSection =>
    ({ t with validation_errors :=
        t.validation_errors ++ ["ticket section not found in template."] }, false)
  | .fileNotFound p =>
    ({ t with validation_errors :=
        t.validation_errors ++ ["File not found: " ++ p] }, false)
  | .tomlDecodeError m =>
    ({ t with validation_errors :=
        t.validation_errors ++ ["TOML decode error: " ++ m] }, false)
  | .unexpectedError m =>
    ({ t with validation_errors :=
        t.validation_errors ++ ["Unexpected loading error: " ++ m] }, false)

/-- One operation of the template lifecycle, with its inputs.  `is_due` and
`create_ticket` never assign to the template's fields, so as state
transformers they are the identity. -/
inductive TOp where
  | loadOp (o : LoadOutcome)
  | validateOp (fs : FS)
  | isDueOp (d : PyDate)
  | createOp (fs : FS) (b : Behavior) (hasIntegrationClient : Bool)

/-- The template state after one operation. -/
def applyOp (t : TicketTemplate) : TOp → TicketTemplate
  | .loadOp o => (load t o).1
  | .validateOp fs => (validate_structure t fs).1
  | .isDueOp _ => t
  | .createOp _ _ _ => t

/-- The template state after a sequence of operations. -/
def applyOps (t : TicketTemplate) (ops : List TOp) : TicketTemplate :=
  ops.foldl applyOp t

/-- `ServiceNowIntegrationClient.create_requested_item`
(servicenow.py lines 1075-1127) as a function of the integration-endpoint
response (its try/except guards only the HTTP request, which the `response`
argument already stands for) and of the `get_requested_item` re-fetch,
supplied as an oracle.  The final `if` has no else branch, so a null
response or one without `result` falls through to Python's implicit
`None`. -/
def integration_create_requested_item (response : Value)
    (get_requested_item : Value → Value) : Except PyErr Value :=
  if response.truthy then
    match pyIn (Value.str "result") response with
    | .error e => .error e
    | .ok true =>
      match pySub response "result" with
      | .error e => .error e
      | .ok res =>
        match pySub res "requestItemNumber" with
        | .error e => .error e
        | .ok created_ritm => .ok (get_requested_item created_ritm)
    | .ok false => .ok Value.none
  else .ok Value.none

/-- Reading of a schedule field as a Python integer (an `int`, or — because
Python's `bool` is an `int` subclass — a `bool` counting as 0/1). -/
def intLikeVal : Value → Option Int
  | .int n => some n
  | .bool b => some (if b then 1 else 0)
  | _ => Option.none

/-- The due-date rule exactly as the specification words it, stated over the
schedule mapping and the reference date: one clause per frequency, `false`
for any other or missing frequency and for malformed field values. -/
def is_due_spec (sched : List (String × Value)) (d : PyDate) : Bool :=
  match dget sched "frequency" with
  | .str s =>
    if s = "daily" then decide (d.weekday ≤ 4)
    else if s = "weekly" then
      match intLikeVal (dget sched "day_of_week") with
      | some n => (d.weekday : Int) == n
      | Option.none => false
    else if s = "monthly" then
      match intLikeVal (dget sched "day_of_month") with
      | some n => (d.day : Int) == n
      | Option.none => false
    else if s = "quarterly" then
      match dget sched "months", intLikeVal (dget sched "day_of_month") with
      | .list ms, some n =>
        ms.any (fun m => pyEq (Value.int (d.month : Int)) m) && (d.day : Int) == n
      | _, _ => false
    else false
  | _ => false

/-- The retention condition of the attachment loop, over the entry's `path`
and `required` values: structurally valid (non-empty string path, boolean
required) and the file exists locally. -/
def attachmentKeptArgs (fs : FS) (file_path is_file_required : Value) : Bool :=
  match file_path, is_file_required with
  | .str p, .bool _ => !(p == "") && fs.isfile p
  | _, _ => false

/-- The retention condition for a whole entry: a dict whose `path` and
`required` values satisfy `attachmentKeptArgs`. -/
def attachmentKept (fs : FS) : Value → Bool
  | .dict d => attachmentKeptArgs fs (dget d "path") (dget d "required")
  | _ => false

/-- The `path` value of an attachment entry, as `_finalize_details` reads
it. -/
def attachPathVal : Value → Value
  | .dict d => dget d "path"
  | _ => Value.none

/-- A filesystem with no files at all. -/
def emptyFS : FS := { isfile := fun _ => false, pathExists := fun _ => false }

/-- A filesystem containing exactly `a.txt`. -/
def aOnlyFS : FS :=
  { isfile := fun p => p == "a.txt", pathExists := fun p => p == "a.txt" }

/-- A filesystem containing exactly `there.txt`. -/
def thereOnlyFS : FS :=
  { isfile := fun p => p == "there.txt", pathExists := fun p => p == "there.txt" }

/-- A filesystem containing exactly `a.txt` and `b.txt`. -/
def abFS : FS :=
  { isfile := fun p => p == "a.txt" || p == "b.txt",
    pathExists := fun p => p == "a.txt" || p == "b.txt" }

/-- A template that is missing every required string field and has an
unrecognized frequency: two independent families of violations. -/
def invalidScheduleTemplate : TicketTemplate :=
  { schedule := [("frequency", Value.str "yearly")] }

/-- An otherwise-valid daily template whose single attachment is optional
and missing from the filesystem. -/
def optionalAttachmentTemplate : TicketTemplate :=
  { assignment_group := Value.str "Group",
    short_description := Value.str "Summary",
    description := Value.str "Details",
    schedule := [("frequency", Value.str "daily")],
    attachments := [Value.dict
      [("path", Value.str "missing.txt"), ("required", Value.bool false)]] }

/-- The same template with the attachment marked required. -/
def requiredAttachmentTemplate : TicketTemplate :=
  { assignment_group := Value.str "Group",
    short_description := Value.str "Summary",
    description := Value.str "Details",
    schedule := [("frequency", Value.str "daily")],
    attachments := [Value.dict
      [("path", Value.str "missing.txt"), ("required", Value.bool true)]] }

/-- A valid daily template with one existing required attachment
(`a.txt` together with `aOnlyFS`). -/
def happyTemplate : TicketTemplate :=
  { assignment_group := Value.str "Group",
    short_description := Value.str "Summary",
    description := Value.str "Details",
    schedule := [("frequency", Value.str "daily")],
    attachments := [Value.dict
      [("path", Value.str "a.txt"), ("required", Value.bool true)]] }

/-- A template whose first attachment file (`gone.txt`) is absent at upload
time while the second (`there.txt`) exists. -/
def missingFileTemplate : TicketTemplate :=
  { assignment_group := Value.str "Group",
    short_description := Value.str "Summary",
    description := Value.str "Details",
    schedule := [("frequency", Value.str "daily")],
    attachments :=
      [Value.dict [("path", Value.str "gone.txt"), ("required", Value.bool true)],
       Value.dict [("path", Value.str "there.txt"), ("required", Value.bool true)]] }

/-- A valid daily template with two existing required attachments
(`a.txt`, `b.txt` together with `abFS`). -/
def twoAttachmentTemplate : TicketTemplate :=
  { assignment_group := Value.str "Group",
    short_description := Value.str "Summary",
    description := Value.str "Details",
    schedule := [("frequency", Value.str "daily")],
    attachments :=
      [Value.dict [("path", Value.str "a.txt"), ("required", Value.bool true)],
       Value.dict [("path", Value.str "b.txt"), ("required", Value.bool true)]] }

/-- A template whose `integration_helper` flag is true. -/
def integrationTemplate : TicketTemplate := { integration_helper := Value.bool true }

/-- A backend on which creation succeeds (record with a `sys_id`) and the
update PUT and every attachment upload come back with a null result. -/
def apiOkBehavior : Behavior :=
  { apiCreate := Value.dict [("sys_id", Value.str "SYS1"), ("number", Value.str "R1")],
    integCreate := .ok Value.none,
    updateResponse := Value.none,
    attachResponse := fun _ => Value.none }

/-- A backend on which both creation paths signal failure by returning
`None`. -/
def createFailBehavior : Behavior :=
  { apiCreate := Value.none,
    integCreate := .ok Value.none,
    updateResponse := Value.none,
    attachResponse := fun _ => Value.none }

/-! Helper lemmas about the validator. -/

theorem attachmentEntryStep_kept (fs : FS) (i : Nat) (item fp req : Value) :
    (attachmentEntryStep fs i item fp req).2 =
      if attachmentKeptArgs fs fp req then [item] else [] := by
  cases fp <;> cases req <;>
    simp [attachmentEntryStep, attachmentKeptArgs, Value.isStr, Value.isBool,
      Value.truthy]
  case str.bool p b =>
    by_cases hp0 : p = ""
    · simp [hp0]
    · simp [hp0]
      cases hf : fs.isfile p <;> cases b <;> simp

theorem attachmentStep_kept (fs : FS) (i : Nat) (item : Value) :
    (attachmentStep fs i item).2 = if attachmentKept fs item then [item] else [] := by
  cases item <;> simp [attachmentStep, attachmentKept, attachmentEntryStep_kept]

theorem attachmentScan_processed (fs : FS) (l : List Value) (i : Nat) :
    (attachmentScan fs i l).2 = l.filter (attachmentKept fs) := by
  induction l generalizing i with
  | nil => simp [attachmentScan]
  | cons a l ih =>
    simp [attachmentScan, ih, attachmentStep_kept, List.filter_cons]
    split <;> simp

theorem attachmentEntryStep_required_missing (fs : FS) (i : Nat) (item : Value)
    (p : String) (hp : p ≠ "") (hf : fs.isfile p = false) :
    attachmentEntryStep fs i item (Value.str p) (Value.bool true) =
      (["Required attachment file " ++ p ++ " (item at index " ++ toString i
        ++ ") does not exist."], []) := by
  simp [attachmentEntryStep, Value.isStr, Value.isBool, Value.truthy, hp, hf]

theorem attachmentEntryStep_optional_missing (fs : FS) (i : Nat) (item : Value)
    (p : String) (hp : p ≠ "") (hf : fs.isfile p = false) :
    attachmentEntryStep fs i item (Value.str p) (Value.bool false) = ([], []) := by
  simp [attachmentEntryStep, Value.isStr, Value.isBool, Value.truthy, hp, hf]

theorem attachmentScan_errors_ne_nil (fs : FS) (item : Value)
    (h : ∀ j, (attachmentStep fs j item).1 ≠ []) :
    ∀ (l : List Value) (i : Nat), item ∈ l → (attachmentScan fs i l).1 ≠ [] := by
  intro l
  induction l with
  | nil => intro i hi; cases hi
  | cons a l ih =>
    intro i hi
    rcases List.mem_cons.mp hi with rfl | hmem
    · simp [attachmentScan]
      intro hstep
      exact absurd hstep (h i)
    · simp [attachmentScan]
      intro _
      exact ih (i + 1) hmem

theorem attachmentKept_shape (fs : FS) (a : Value) (h : attachmentKept fs a = true) :
    ∃ d p b, a = Value.dict d ∧ dget d "path" = Value.str p ∧ (p = "") = False
      ∧ fs.isfile p = true ∧ dget d "required" = Value.bool b := by
  cases a <;> simp [attachmentKept] at h
  case dict d =>
    cases hp : dget d "path" <;> cases hr : dget d "required" <;>
      simp [attachmentKeptArgs, hp, hr] at h
    case str.bool p b =>
      exact ⟨d, p, b, rfl, by simp [hp], by simp [h.1], h.2, by simp [hr]⟩

/-! Helper lemmas about the orchestration layer. -/

theorem update_ticket_of_truthy (b : Behavior) (sys_id : Value)
    (payload : List (String × Value)) (hsy : sys_id.truthy = true) :
    update_ticket b "sc_req_item" sys_id payload = update_response_result b := by
  simp [update_ticket, hsy]

theorem add_attachment_ok (fs : FS) (b : Behavior) (sys_id : Value) (p : String)
    (hsy : sys_id.truthy = true) (hex : fs.pathExists p = true) :
    ∃ v, add_attachment fs b "sc_req_item" sys_id (Value.str p) = .ok v := by
  simp [add_attachment, hsy, hex]
  cases hr : (b.attachResponse p).truthy
  · simp [hr]
  · simp [hr]
    cases b.attachResponse p <;> simp
    case dict d => split <;> simp

theorem attachmentUploads_all_ok (fs : FS) (b : Behavior) (sys_id : Value)
    (hsy : sys_id.truthy = true) :
    ∀ l : List Value,
      (∀ a ∈ l, ∃ d p, a = Value.dict d ∧ dget d "path" = Value.str p
        ∧ fs.pathExists p = true) →
      attachmentUploads fs b sys_id l =
        (l.map (fun a => Event.attach "sc_req_item" sys_id (attachPathVal a)),
          Option.none) := by
  intro l
  induction l with
  | nil => intro _; simp [attachmentUploads]
  | cons a l ih =>
    intro h
    rcases h a (List.Mem.head l) with ⟨d, p, ha, hpath, hex⟩
    obtain ⟨v, hv⟩ := add_attachment_ok fs b sys_id p hsy hex
    have htail := ih (fun x hx => h x (List.Mem.tail a hx))
    subst ha
    simp [attachmentUploads, pyGetM, hpath, hv, htail, attachPathVal]

theorem finalize_details_happy (t : TicketTemplate) (fs : FS) (b : Behavior)
    (sys_id : Value) (hsy : sys_id.truthy = true)
    (hupd : ∃ v, update_response_result b = .ok v)
    (hatt : ∀ a ∈ t.attachments, ∃ d p, a = Value.dict d
      ∧ dget d "path" = Value.str p ∧ fs.pathExists p = true) :
    finalize_details t fs b sys_id =
      (Event.update "sc_req_item" sys_id
          [("short_description", t.short_description),
            ("description", t.description)]
        :: t.attachments.map
          (fun a => Event.attach "sc_req_item" sys_id (attachPathVal a)),
        .ok Value.none) := by
  obtain ⟨v, hv⟩ := hupd
  have hup := attachmentUploads_all_ok fs b sys_id hsy t.attachments hatt
  cases hA : t.attachments with
  | nil =>
    simp [finalize_details, update_ticket_of_truthy b sys_id _ hsy, hv, hA]
  | cons x xs =>
    rw [hA] at hup
    simp [finalize_details, update_ticket_of_truthy b sys_id _ hsy, hv, hA, hup]

theorem create_via_api_ok (t : TicketTemplate) (b : Behavior)
    (dd : List (String × Value)) (hb : b.apiCreate = Value.dict dd)
    (htr : (Value.dict dd).truthy = true) :
    create_via_api t b = ([Event.apiCreate t.assignment_group], .ok (Value.dict dd)) := by
  simp [create_via_api, hb, htr, pyGetM]

theorem create_via_integration_ok (t : TicketTemplate) (b : Behavior)
    (dd : List (String × Value)) (hb : b.integCreate = .ok (Value.dict dd))
    (htr : (Value.dict dd).truthy = true) :
    create_via_integration t b =
      ([Event.integCreate t.assignment_group], .ok (Value.dict dd)) := by
  simp [create_via_integration, hb, htr, pyGetM]

theorem create_ticket_after_base_happy (t : TicketTemplate) (fs : FS)
    (b : Behavior) (e : Event) (dd : List (String × Value))
    (htr : (Value.dict dd).truthy = true)
    (hsy : (dget dd "sys_id").truthy = true)
    (hupd : ∃ v, update_response_result b = .ok v)
    (hatt : ∀ a ∈ t.attachments, ∃ d p, a = Value.dict d
      ∧ dget d "path" = Value.str p ∧ fs.pathExists p = true) :
    create_ticket_after_base t fs b ([e], .ok (Value.dict dd)) =
      (e :: Event.update "sc_req_item" (dget dd "sys_id")
          [("short_description", t.short_description),
            ("description", t.description)]
        :: t.attachments.map
          (fun a => Event.attach "sc_req_item" (dget dd "sys_id") (attachPathVal a)),
        .ok Value.none) := by
  have hfin := finalize_details_happy t fs b (dget dd "sys_id") hsy hupd hatt
  simp [create_ticket_after_base, htr, pyGetM, hfin]

theorem finalize_details_ok_none (t : TicketTemplate) (fs : FS) (b : Behavior)
    (s : Value) (v : Value) (h : (finalize_details t fs b s).2 = .ok v) :
    v = Value.none := by
  unfold finalize_details at h
  rcases hu : update_ticket b "sc_req_item" s
      [("short_description", t.short_description), ("description", t.description)]
    with e | r
  · simp [hu] at h
  · by_cases hA : t.attachments.isEmpty
    · simp [hu, hA] at h
      exact h.symm
    · rcases hup : (attachmentUploads fs b s t.attachments).2 with _ | e
      · simp [hu, hA, hup] at h
        exact h.symm
      · simp [hu, hA, hup] at h

theorem create_ticket_after_base_ok (t : TicketTemplate) (fs : FS) (b : Behavior)
    (base : List Event × Except PyErr Value) (v : Value)
    (h : (create_ticket_after_base t fs b base).2 = .ok v) :
    v = Value.bool false ∨ v = Value.none := by
  unfold create_ticket_after_base at h
  rcases hb : base.2 with e | tb
  · simp [hb] at h
  · simp [hb] at h
    split at h
    · simp at h
      exact Or.inl h.symm
    · rcases hg : pyGetM tb "sys_id" with e | sys_id
      · simp [hg] at h
      · simp [hg] at h
        exact Or.inr (finalize_details_ok_none t fs b sys_id v h)

/-! Claim theorems. -/

/-- C5: For every schedule mapping and reference date, `is_due` returns
exactly what the specification's per-frequency rules prescribe: daily is
true iff the weekday index is 0-4; weekly iff `day_of_week` is an integer
equal to the weekday index; monthly iff `day_of_month` is an integer equal
to the day-of-month; quarterly iff `months` is a list containing the month
number and `day_of_month` is an integer equal to the day-of-month; false
for any other or missing frequency; and malformed schedule values evaluate
to false (both sides are total functions — no error is raised). -/
theorem is_due_matches_spec (t : TicketTemplate) (d : PyDate) :
    is_due t d = is_due_spec t.schedule d := by
  unfold is_due is_due_spec
  cases hf : dget t.schedule "frequency" with
  | str s =>
    by_cases h1 : s = "daily"
    · subst h1; simp [pyEq, beqV]; omega
    · by_cases h2 : s = "weekly"
      · subst h2
        simp [pyEq, beqV, h1]
        cases hd : dget t.schedule "day_of_week" <;>
          simp [intLikeVal, Value.isInstInt, pyEq, beqV]
      · by_cases h3 : s = "monthly"
        · subst h3
          simp [pyEq, beqV, h1, h2]
          cases hd : dget t.schedule "day_of_month" <;>
            simp [intLikeVal, Value.isInstInt, pyEq, beqV]
        · by_cases h4 : s = "quarterly"
          · subst h4
            simp [pyEq, beqV, h1, h2, h3]
            cases hm : dget t.schedule "months" <;>
              cases hd : dget t.schedule "day_of_month" <;>
                simp [intLikeVal, Value.isInstInt, Value.isInstList, pyEq, beqV,
                  pyInList]
          · simp [pyEq, beqV, h1, h2, h3, h4]
  | none => simp [pyEq, beqV]
  | bool b => simp [pyEq, beqV]
  | int n => simp [pyEq, beqV]
  | list l => simp [pyEq, beqV]
  | dict e => simp [pyEq, beqV]

/-- C3: `validate_structure` accumulates all violations of one call in a
single pass without short-circuiting, and returns true iff that call
accumulated none: (1) the result is true exactly when the errors of this
call are empty; (2) `validation_errors` grows by exactly those errors, all
of them recorded; (3) on a concrete template missing `short_description`
(and the other required fields) and carrying a bad frequency, the call
returns false and has recorded both the missing-field error and the bad
frequency error. -/
theorem validate_structure_accumulates_all_violations :
    (∀ (t : TicketTemplate) (fs : FS),
      (validate_structure t fs).2 = true ↔ validate_structure_errors t fs = [])
    ∧ (∀ (t : TicketTemplate) (fs : FS),
      (validate_structure t fs).1.validation_errors =
        t.validation_errors ++ validate_structure_errors t fs)
    ∧ ((validate_structure invalidScheduleTemplate emptyFS).2 = false
      ∧ "short_description is missing or null."
          ∈ (validate_structure invalidScheduleTemplate emptyFS).1.validation_errors
      ∧ "Invalid frequency value. Allowed: daily, weekly, monthly, quarterly"
          ∈ (validate_structure invalidScheduleTemplate emptyFS).1.validation_errors) := by
  refine ⟨?_, ?_, ?_, ?_, ?_⟩
  · intro t fs
    simp [validate_structure]
  · intro t fs
    simp [validate_structure]
  · decide
  · decide
  · decide

/-- C4: the attachment handling of `validate_structure`: (1) afterwards
`attachments` is exactly the original list filtered to the structurally
valid, existence-confirmed entries, in original order; (2) a structurally
valid entry with `required = true` whose file is missing makes the call
return false (a validation error was accumulated); (3) a structurally valid
entry with `required = false` whose file is missing contributes no error
and is not retained (warning only); (4) concretely, an otherwise-valid
template with such an optional missing entry still validates to true with
the entry dropped, while the `required = true` variant validates to
false. -/
theorem validate_structure_attachment_filtering :
    (∀ (t : TicketTemplate) (fs : FS),
      (validate_structure t fs).1.attachments =
        t.attachments.filter (attachmentKept fs))
    ∧ (∀ (t : TicketTemplate) (fs : FS) (d : List (String × Value)) (p : String),
      Value.dict d ∈ t.attachments → dget d "path" = Value.str p → p ≠ "" →
      dget d "required" = Value.bool true → fs.isfile p = false →
      (validate_structure t fs).2 = false)
    ∧ (∀ (fs : FS) (i : Nat) (item : Value) (p : String), p ≠ "" →
      fs.isfile p = false →
      attachmentEntryStep fs i item (Value.str p) (Value.bool false) = ([], []))
    ∧ ((validate_structure optionalAttachmentTemplate emptyFS).2 = true
      ∧ (validate_structure optionalAttachmentTemplate emptyFS).1.attachments = []
      ∧ (validate_structure requiredAttachmentTemplate emptyFS).2 = false) := by
  refine ⟨?_, ?_, ?_, ?_⟩
  · intro t fs
    simp [validate_structure, attachmentScan_processed]
  · intro t fs d p hmem hpath hp hreq hf
    have hstep : ∀ j, (attachmentStep fs j (Value.dict d)).1 ≠ [] := by
      intro j
      simp [attachmentStep, hpath, hreq,
        attachmentEntryStep_required_missing fs j _ p hp hf]
    have hne := attachmentScan_errors_ne_nil fs (Value.dict d) hstep
      t.attachments 0 hmem
    have herrs : validate_structure_errors t fs ≠ [] := by
      intro hnil
      simp only [validate_structure_errors, List.append_eq_nil] at hnil
      exact hne hnil.2
    cases herr : validate_structure_errors t fs with
    | nil => exact absurd herr herrs
    | cons a l => simp [validate_structure, herr]
  · intro fs i item p hp hf
    exact attachmentEntryStep_optional_missing fs i item p hp hf
  · refine ⟨by decide, rfl, by decide⟩

/-- Closed instantiation of `validate_structure_attachment_filtering`: the
required-but-missing conjunct applied to the concrete template whose single
attachment names an absent file, and the optional-missing conjunct at a
concrete entry. -/
theorem validate_structure_attachment_filtering_instance :
    (validate_structure requiredAttachmentTemplate emptyFS).2 = false
    ∧ attachmentEntryStep emptyFS 0
        (Value.dict [("path", Value.str "missing.txt"), ("required", Value.bool false)])
        (Value.str "missing.txt") (Value.bool false) = ([], []) := by
  refine ⟨?_, ?_⟩
  · exact validate_structure_attachment_filtering.2.1 requiredAttachmentTemplate
      emptyFS [("path", Value.str "missing.txt"), ("required", Value.bool true)]
      "missing.txt" (List.Mem.head _) rfl (by decide) rfl (by decide)
  · exact validate_structure_attachment_filtering.2.2.1 emptyFS 0
      (Value.dict [("path", Value.str "missing.txt"), ("required", Value.bool false)])
      "missing.txt" (by decide) rfl

/-- C6: a template with `integration_helper` set to true, run without an
integration client, makes `create_ticket` return False with an empty
invocation trace: the standard creation path is not invoked, no create call
of any kind is made, and no later phase runs. -/
theorem create_ticket_requires_integration_client
    (t : TicketTemplate) (fs : FS) (b : Behavior)
    (h : t.integration_helper = Value.bool true) :
    create_ticket t fs b false = ([], .ok (Value.bool false)) := by
  simp [create_ticket, h, Value.truthy]

/-- Closed instantiation of `create_ticket_requires_integration_client` at
a concrete template. -/
theorem create_ticket_requires_integration_client_instance :
    create_ticket integrationTemplate emptyFS apiOkBehavior false
      = ([], .ok (Value.bool false)) :=
  create_ticket_requires_integration_client integrationTemplate emptyFS
    apiOkBehavior rfl

/-- C7: when the chosen phase-1 creation path signals failure by returning
no record (a falsy result), `create_ticket` returns False and the trace
contains only that one create invocation: neither the phase-2 update call
nor any phase-3 attachment upload is attempted.  Stated for both creation
paths. -/
theorem create_ticket_phase1_failure_aborts
    (t : TicketTemplate) (fs : FS) (b : Behavior) :
    (∀ hI : Bool, t.integration_helper.truthy = false → b.apiCreate.truthy = false →
      create_ticket t fs b hI =
        ([Event.apiCreate t.assignment_group], .ok (Value.bool false)))
    ∧ (∀ r : Value, t.integration_helper.truthy = true → b.integCreate = .ok r →
      r.truthy = false →
      create_ticket t fs b true =
        ([Event.integCreate t.assignment_group], .ok (Value.bool false))) := by
  constructor
  · intro hI hih hapi
    have h1 : create_via_api t b =
        ([Event.apiCreate t.assignment_group], .ok Value.none) := by
      simp [create_via_api, hapi]
    unfold create_ticket
    rw [hih]
    simp [h1, create_ticket_after_base, Value.truthy]
  · intro r hih hint hr
    have h1 : create_via_integration t b =
        ([Event.integCreate t.assignment_group], .ok Value.none) := by
      simp [create_via_integration, hint, hr]
    unfold create_ticket
    rw [hih]
    simp [h1, create_ticket_after_base, Value.truthy]

/-- Closed instantiation of `create_ticket_phase1_failure_aborts`: both
conjuncts applied at concrete templates and a backend whose creation calls
return `None`. -/
theorem create_ticket_phase1_failure_aborts_instance :
    create_ticket { schedule := [("frequency", Value.str "daily")] } emptyFS
        createFailBehavior false = ([Event.apiCreate Value.none], .ok (Value.bool false))
    ∧ create_ticket integrationTemplate emptyFS createFailBehavior true
        = ([Event.integCreate Value.none], .ok (Value.bool false)) :=
  ⟨(create_ticket_phase1_failure_aborts _ emptyFS createFailBehavior).1 false
      rfl rfl,
    (create_ticket_phase1_failure_aborts integrationTemplate emptyFS
      createFailBehavior).2 Value.none rfl rfl rfl⟩

/-- C9: `create_ticket` never returns True.  Whenever it returns normally,
the returned value is either the literal False (a failure path) or `None`
(the full-success path, because `_finalize_details` has no return statement
and yields Python's implicit `None`); in particular the value is always
falsy, so a caller testing the result for truthiness observes a falsy value
even when all three phases succeed. -/
theorem create_ticket_never_returns_true :
    (∀ (t : TicketTemplate) (fs : FS) (b : Behavior) (hI : Bool) (v : Value),
      (create_ticket t fs b hI).2 = .ok v →
        v = Value.bool false ∨ v = Value.none)
    ∧ (∀ (t : TicketTemplate) (fs : FS) (b : Behavior) (s v : Value),
      (finalize_details t fs b s).2 = .ok v → v = Value.none)
    ∧ (∀ (t : TicketTemplate) (fs : FS) (b : Behavior) (hI : Bool) (v : Value),
      (create_ticket t fs b hI).2 = .ok v → v.truthy = false) := by
  have hmain : ∀ (t : TicketTemplate) (fs : FS) (b : Behavior) (hI : Bool)
      (v : Value), (create_ticket t fs b hI).2 = .ok v →
      v = Value.bool false ∨ v = Value.none := by
    intro t fs b hI v h
    unfold create_ticket at h
    by_cases hih : t.integration_helper.truthy
    · simp [hih] at h
      by_cases hI2 : hI
      · simp [hI2] at h
        exact create_ticket_after_base_ok t fs b _ v h
      · simp [hI2] at h
        exact Or.inl h.symm
    · simp [hih] at h
      exact create_ticket_after_base_ok t fs b _ v h
  refine ⟨hmain, fun t fs b s v h => finalize_details_ok_none t fs b s v h,
    fun t fs b hI v h => ?_⟩
  rcases hmain t fs b hI v h with rfl | rfl <;> rfl

/-- Closed instantiation of `create_ticket_never_returns_true` at a run that
returns normally (the no-integration-client failure path, which returns the
literal False). -/
theorem create_ticket_never_returns_true_instance :
    Value.bool false = Value.bool false ∨ Value.bool false = Value.none :=
  create_ticket_never_returns_true.1 integrationTemplate emptyFS apiOkBehavior
    false (Value.bool false) rfl

/-- C1: for a template that validates successfully (against the same
filesystem used for the run) and is due, with exactly one retained
attachment, a supplied client whenever the integration path is selected,
and a backend on which the chosen creation path returns a truthy record
with a truthy sys_id and the update PUT parses cleanly, `create_ticket`
performs exactly one base-record create call, then exactly one update call
setting `short_description` and `description`, then exactly one
attachment-upload call, in that order — regardless of which of the two
creation paths created the base record. -/
theorem create_ticket_happy_path_trace
    (t0 : TicketTemplate) (fs : FS) (b : Behavior) (hI : Bool) (today : PyDate)
    (hfs : ∀ p, fs.isfile p = true → fs.pathExists p = true)
    (hvalid : (validate_structure t0 fs).2 = true)
    (hdue : is_due (validate_structure t0 fs).1 today = true)
    (hlen : (validate_structure t0 fs).1.attachments.length = 1)
    (hintc : (validate_structure t0 fs).1.integration_helper.truthy = true → hI = true)
    (hbase : ∃ dd, (if (validate_structure t0 fs).1.integration_helper.truthy
        then b.integCreate else Except.ok b.apiCreate) = Except.ok (Value.dict dd)
        ∧ (Value.dict dd).truthy = true ∧ (dget dd "sys_id").truthy = true)
    (hupd : ∃ v, update_response_result b = Except.ok v) :
    ∃ createEv sys_id path,
      create_ticket (validate_structure t0 fs).1 fs b hI =
        ([createEv,
          Event.update "sc_req_item" sys_id
            [("short_description", (validate_structure t0 fs).1.short_description),
              ("description", (validate_structure t0 fs).1.description)],
          Event.attach "sc_req_item" sys_id (Value.str path)],
          Except.ok Value.none)
      ∧ (createEv = Event.apiCreate (validate_structure t0 fs).1.assignment_group
        ∨ createEv = Event.integCreate (validate_structure t0 fs).1.assignment_group) := by
  set t : TicketTemplate := (validate_structure t0 fs).1 with ht
  have hfilter : t.attachments = t0.attachments.filter (attachmentKept fs) := by
    rw [ht]
    simp [validate_structure, attachmentScan_processed]
  have hmem : ∀ x ∈ t.attachments, attachmentKept fs x = true := by
    intro x hx
    rw [hfilter] at hx
    exact List.of_mem_filter hx
  have hatt : ∀ x ∈ t.attachments, ∃ d p, x = Value.dict d
      ∧ dget d "path" = Value.str p ∧ fs.pathExists p = true := by
    intro x hx
    obtain ⟨d, p, bb, rfl, hpath, hpe, hisf, hreq⟩ :=
      attachmentKept_shape fs x (hmem x hx)
    exact ⟨d, p, rfl, hpath, hfs p hisf⟩
  obtain ⟨a, ha⟩ := List.length_eq_one.mp hlen
  have hamem : a ∈ t.attachments := ha ▸ List.Mem.head []
  obtain ⟨d, p, hax, hpath, hpex⟩ := hatt a hamem
  by_cases hih : t.integration_helper.truthy
  · have hI2 := hintc hih
    subst hI2
    obtain ⟨dd, hbase2, htr, hsy⟩ := hbase
    rw [if_pos hih] at hbase2
    have hcvi := create_via_integration_ok t b dd hbase2 htr
    have hab := create_ticket_after_base_happy t fs b
      (Event.integCreate t.assignment_group) dd htr hsy hupd hatt
    refine ⟨Event.integCreate t.assignment_group, dget dd "sys_id", p, ?_, Or.inr rfl⟩
    unfold create_ticket
    rw [hih]
    simp only [if_true]
    rw [hcvi, hab, ha]
    simp [attachPathVal, hax, hpath]
  · obtain ⟨dd, hbase2, htr, hsy⟩ := hbase
    rw [if_neg (by simp [hih])] at hbase2
    have hapi : b.apiCreate = Value.dict dd := Except.ok.inj hbase2
    have hcva := create_via_api_ok t b dd hapi htr
    have hab := create_ticket_after_base_happy t fs b
      (Event.apiCreate t.assignment_group) dd htr hsy hupd hatt
    refine ⟨Event.apiCreate t.assignment_group, dget dd "sys_id", p, ?_, Or.inl rfl⟩
    unfold create_ticket
    rw [Bool.not_eq_true] at hih
    rw [hih]
    simp only [Bool.false_eq_true, if_false]
    rw [hcva, hab, ha]
    simp [attachPathVal, hax, hpath]

/-- Closed instantiation of `create_ticket_happy_path_trace`: the valid
daily template with one existing required attachment, run against the
standard creation path on a succeeding backend. -/
theorem create_ticket_happy_path_trace_instance :
    ∃ createEv sys_id path,
      create_ticket (validate_structure happyTemplate aOnlyFS).1 aOnlyFS
          apiOkBehavior false =
        ([createEv,
          Event.update "sc_req_item" sys_id
            [("short_description",
              (validate_structure happyTemplate aOnlyFS).1.short_description),
              ("description",
              (validate_structure happyTemplate aOnlyFS).1.description)],
          Event.attach "sc_req_item" sys_id (Value.str path)],
          Except.ok Value.none)
      ∧ (createEv = Event.apiCreate
            (validate_structure happyTemplate aOnlyFS).1.assignment_group
        ∨ createEv = Event.integCreate
            (validate_structure happyTemplate aOnlyFS).1.assignment_group) :=
  create_ticket_happy_path_trace happyTemplate aOnlyFS apiOkBehavior false
    ⟨0, 1, 1⟩ (fun _ h => h) rfl rfl rfl (by decide)
    ⟨[("sys_id", Value.str "SYS1"), ("number", Value.str "R1")], rfl, rfl, rfl⟩
    ⟨Value.none, rfl⟩

/-- C2 as stated is refuted at this input: the template's first attachment
file (`gone.txt`) is missing at upload time, so after phase 1 (the create
call) and phase 2 (the update call) were both performed, the first phase-3
upload raises an uncaught `FileNotFoundError` (servicenow.py line 941, not
caught in template.py lines 78-84): the remaining attachment entry
(`there.txt`, which exists) is never processed — its upload call does not
appear in the trace — and `create_ticket` does not return at all but
propagates the exception, so the whole operation does fail. -/
theorem create_ticket_missing_file_aborts_attachments :
    create_ticket missingFileTemplate thereOnlyFS apiOkBehavior false =
      ([Event.apiCreate (Value.str "Group"),
        Event.update "sc_req_item" (Value.str "SYS1")
          [("short_description", Value.str "Summary"),
            ("description", Value.str "Details")],
        Event.attach "sc_req_item" (Value.str "SYS1") (Value.str "gone.txt")],
        Except.error PyErr.fileNotFoundError) := rfl

/-- C2 (amended): after phase 1 and phase 2 have been performed, an
attachment-upload failure that the client signals by returning a null
result (a transport/HTTP error, or a file-read IOError caught inside
`add_attachment`) is logged but does not fail the whole operation:
`create_ticket` does not return False on account of it, no rollback of
phases 1/2 occurs, and the remaining attachment entries are still
processed.  (A file missing at upload time instead raises an uncaught
`FileNotFoundError` that aborts the remaining entries and propagates out of
`create_ticket` — see `create_ticket_missing_file_aborts_attachments`.)
Formally: with no assumption at all on the upload responses
(`b.attachResponse` is unconstrained, so in particular every upload may
yield a null result), every attachment entry whose file exists receives its
upload call and the run returns `None`. -/
theorem create_ticket_null_result_upload_failures_tolerated
    (t : TicketTemplate) (fs : FS) (b : Behavior) (hI : Bool)
    (hintc : t.integration_helper.truthy = true → hI = true)
    (hbase : ∃ dd, (if t.integration_helper.truthy then b.integCreate
        else Except.ok b.apiCreate) = Except.ok (Value.dict dd)
        ∧ (Value.dict dd).truthy = true ∧ (dget dd "sys_id").truthy = true)
    (hupd : ∃ v, update_response_result b = Except.ok v)
    (hatt : ∀ x ∈ t.attachments, ∃ d p, x = Value.dict d
      ∧ dget d "path" = Value.str p ∧ fs.pathExists p = true) :
    ∃ createEv sys_id,
      create_ticket t fs b hI =
        (createEv :: Event.update "sc_req_item" sys_id
            [("short_description", t.short_description),
              ("description", t.description)]
          :: t.attachments.map
            (fun x => Event.attach "sc_req_item" sys_id (attachPathVal x)),
          Except.ok Value.none) := by
  by_cases hih : t.integration_helper.truthy
  · have hI2 := hintc hih
    subst hI2
    obtain ⟨dd, hbase2, htr, hsy⟩ := hbase
    rw [if_pos hih] at hbase2
    have hcvi := create_via_integration_ok t b dd hbase2 htr
    have hab := create_ticket_after_base_happy t fs b
      (Event.integCreate t.assignment_group) dd htr hsy hupd hatt
    refine ⟨Event.integCreate t.assignment_group, dget dd "sys_id", ?_⟩
    unfold create_ticket
    rw [hih]
    simp only [if_true]
    rw [hcvi, hab]
  · obtain ⟨dd, hbase2, htr, hsy⟩ := hbase
    rw [if_neg (by simp [hih])] at hbase2
    have hapi : b.apiCreate = Value.dict dd := Except.ok.inj hbase2
    have hcva := create_via_api_ok t b dd hapi htr
    have hab := create_ticket_after_base_happy t fs b
      (Event.apiCreate t.assignment_group) dd htr hsy hupd hatt
    refine ⟨Event.apiCreate t.assignment_group, dget dd "sys_id", ?_⟩
    unfold create_ticket
    rw [Bool.not_eq_true] at hih
    rw [hih]
    simp only [Bool.false_eq_true, if_false]
    rw [hcva, hab]

/-- Closed instantiation of
`create_ticket_null_result_upload_failures_tolerated`: both existing
attachments of the concrete template receive their upload call and the run
returns `None`, although every upload response is null
(`apiOkBehavior.attachResponse` always yields `Value.none`). -/
theorem create_ticket_null_result_upload_failures_tolerated_instance :
    ∃ createEv sys_id,
      create_ticket twoAttachmentTemplate abFS apiOkBehavior false =
        (createEv :: Event.update "sc_req_item" sys_id
            [("short_description", twoAttachmentTemplate.short_description),
              ("description", twoAttachmentTemplate.description)]
          :: twoAttachmentTemplate.attachments.map
            (fun x => Event.attach "sc_req_item" sys_id (attachPathVal x)),
          Except.ok Value.none) :=
  create_ticket_null_result_upload_failures_tolerated twoAttachmentTemplate abFS
    apiOkBehavior false (by decide)
    ⟨[("sys_id", Value.str "SYS1"), ("number", Value.str "R1")], rfl, rfl, rfl⟩
    ⟨Value.none, rfl⟩
    (by
      intro x hx
      simp [twoAttachmentTemplate] at hx
      rcases hx with rfl | rfl
      · exact ⟨_, "a.txt", rfl, rfl, rfl⟩
      · exact ⟨_, "b.txt", rfl, rfl, rfl⟩)

theorem applyOp_validation_errors (t : TicketTemplate) (op : TOp) :
    ∃ s, (applyOp t op).validation_errors = t.validation_errors ++ s := by
  cases op with
  | loadOp o =>
    cases o with
    | parsed ag sd d ih sched atts => exact ⟨[], by simp [applyOp, load]⟩
    | noTicketSection =>
      exact ⟨["ticket section not found in template."], by simp [applyOp, load]⟩
    | fileNotFound p =>
      exact ⟨["File not found: " ++ p], by simp [applyOp, load]⟩
    | tomlDecodeError m =>
      exact ⟨["TOML decode error: " ++ m], by simp [applyOp, load]⟩
    | unexpectedError m =>
      exact ⟨["Unexpected loading error: " ++ m], by simp [applyOp, load]⟩
  | validateOp fs =>
    exact ⟨validate_structure_errors t fs, by simp [applyOp, validate_structure]⟩
  | isDueOp d => exact ⟨[], by simp [applyOp]⟩
  | createOp fs b hI => exact ⟨[], by simp [applyOp]⟩

theorem applyOps_validation_errors (t : TicketTemplate) (ops : List TOp) :
    ∃ s, (applyOps t ops).validation_errors = t.validation_errors ++ s := by
  induction ops generalizing t with
  | nil => exact ⟨[], by simp [applyOps]⟩
  | cons op ops ih =>
    obtain ⟨s1, h1⟩ := applyOp_validation_errors t op
    obtain ⟨s2, h2⟩ := ih (applyOp t op)
    refine ⟨s1 ++ s2, ?_⟩
    have hstep : applyOps t (op :: ops) = applyOps (applyOp t op) ops := rfl
    rw [hstep, h2, h1, List.append_assoc]

/-- C8: `validation_errors` is append-only.  Across any sequence of
operations (`load`, `validate_structure`, `is_due`, `create_ticket` — the
latter two never assign to the list, which `applyOp` reflects), the list at
any earlier point of the sequence stays a leading segment of the list at
any later point: whatever has been accumulated is never removed, reordered
or cleared. -/
theorem validation_errors_append_only (t : TicketTemplate)
    (ops1 ops2 : List TOp) :
    ∃ s, (applyOps t (ops1 ++ ops2)).validation_errors
      = (applyOps t ops1).validation_errors ++ s := by
  have hsplit : applyOps t (ops1 ++ ops2) = applyOps (applyOps t ops1) ops2 := by
    simp [applyOps, List.foldl_append]
  rw [hsplit]
  exact applyOps_validation_errors (applyOps t ops1) ops2

/-- C10: `ServiceNowIntegrationClient.create_requested_item` is not total
over response shapes: (1) a response whose `result` object lacks the key
`requestItemNumber` makes it raise an uncaught `KeyError` (the try/except
guards only the HTTP request, not this parsing); (2) a falsy (null)
response falls through the final `if` without a return and yields `None`;
(3) so does a dict response that lacks `result` entirely. -/
theorem integration_create_requested_item_partiality :
    (∀ g : Value → Value,
      integration_create_requested_item
        (Value.dict [("result", Value.dict [("sys_id", Value.str "X")])]) g
        = .error (.keyError "requestItemNumber"))
    ∧ (∀ (response : Value) (g : Value → Value), response.truthy = false →
      integration_create_requested_item response g = .ok Value.none)
    ∧ (∀ (d : List (String × Value)) (g : Value → Value),
      d.any (fun kv => kv.1 == "result") = false →
      integration_create_requested_item (Value.dict d) g = .ok Value.none) := by
  refine ⟨fun g => rfl, fun response g h => ?_, fun d g h => ?_⟩
  · simp [integration_create_requested_item, h]
  · by_cases hd : d.isEmpty
    · simp [integration_create_requested_item, Value.truthy, hd]
    · simp [integration_create_requested_item, Value.truthy, hd, pyIn, h]

/-- Closed instantiation of `integration_create_requested_item_partiality`:
the `KeyError` response, the null response, and a no-`result` response, all
with a concrete re-fetch oracle. -/
theorem integration_create_requested_item_partiality_instance :
    integration_create_requested_item
        (Value.dict [("result", Value.dict [("sys_id", Value.str "X")])])
        (fun _ => Value.none)
      = .error (.keyError "requestItemNumber")
    ∧ integration_create_requested_item Value.none (fun _ => Value.none)
      = .ok Value.none
    ∧ integration_create_requested_item (Value.dict [("status", Value.str "ok")])
        (fun _ => Value.none)
      = .ok Value.none :=
  ⟨integration_create_requested_item_partiality.1 _,
    integration_create_requested_item_partiality.2.1 Value.none _ rfl,
    integration_create_requested_item_partiality.2.2
      [("status", Value.str "ok")] _ rfl⟩
